import Mathlib

/-!
Shallow embedding of the Jira CLI client (src/index.js) for verification.

The transport primitive (axios) and the terminal prompt are external
collaborators; they are modelled as explicit inputs: a `Transport` function
mapping the single HTTP request an operation issues to its outcome, and the
prompt answers passed as string arguments.  Every operation additionally
returns the list of HTTP requests it issued, so that call-count properties
("no network call is made") can be stated.
-/

/-- Minimal JSON value model for request/response bodies. -/
inductive Json where
  | null : Json
  | bool (b : Bool) : Json
  | num (n : Int) : Json
  | str (s : String) : Json
  | arr (items : List Json) : Json
  | obj (fields : List (String × Json)) : Json

/-- JS property access `j.field` on a parsed JSON value: `some` when the
field is present on an object, `none` (undefined) otherwise. -/
def jsGet (j : Json) (field : String) : Option Json :=
  match j with
  | .obj kvs => (kvs.find? (fun kv => kv.1 == field)).map (fun kv => kv.2)
  | _ => none

/-- The JSON error body shapes inspected by `formatJiraError`:
`error.response.data.errorMessages` (array of strings) and
`error.response.data.errors` (object whose values are strings). `none`
models an absent field. -/
structure JiraErrorBody where
  errorMessages : Option (List String)
  errors : Option (List (String × String))
deriving Repr, DecidableEq

/-- The `error.response` carried by a failed axios call: HTTP status and
optional parsed body. -/
structure ErrorResponse where
  status : Nat
  data : Option JiraErrorBody
deriving Repr, DecidableEq

/-- The error object caught by `makeJiraRequest`: `response` is present for
HTTP (non-2xx) failures and absent for network errors; `message` is the
JS error message (the empty string models a falsy/absent message). -/
structure JiraError where
  response : Option ErrorResponse
  message : String
deriving Repr, DecidableEq

/-- Optional chaining `error.response?.data`. -/
def JiraError.bodyOf (e : JiraError) : Option JiraErrorBody :=
  e.response.bind ErrorResponse.data

/-- JS truthiness test of `errorMessages?.[0]`: the head of the array when
it exists and is a non-empty (truthy) string. -/
def truthyHead : Option (List String) → Option String
  | some (m :: _) => if m = "" then none else some m
  | _ => none

/-- Branch (6)/(7) of the error formatter: `error.message` when truthy,
else the unknown-error literal. -/
def messageOrUnknown (e : JiraError) : String :=
  if e.message = "" then "Unknown error occurred" else e.message

/-- Embeds `formatJiraError` (src/index.js lines 35-51): converts an API error to a
message by fixed precedence: truthy `errorMessages[0]`; else the values of
`errors` joined with ", "; else literal messages for statuses 401/403/404;
else `error.message` when truthy; else "Unknown error occurred". -/
def formatJiraError (e : JiraError) : String :=
  match truthyHead (e.bodyOf.bind JiraErrorBody.errorMessages) with
  | some m => m
  | none =>
    match e.bodyOf.bind JiraErrorBody.errors with
    | some kvs => String.intercalate ", " (kvs.map Prod.snd)
    | none =>
      match e.response with
      | some r =>
        if r.status = 401 then "Authentication failed. Please check your email and API token."
        else if r.status = 403 then "Access denied. You may not have permission for this action."
        else if r.status = 404 then "Resource not found. Please check the issue key or project key."
        else messageOrUnknown e
      | none => messageOrUnknown e

/-- The uniform `{success: true, data}` / `{success: false, error}` result
shape returned by every API operation. -/
inductive ApiResult where
  | ok (data : Json) : ApiResult
  | err (error : String) : ApiResult

/-- One HTTP request as issued by `makeJiraRequest`: resource path relative
to the `/rest/api/3` root, HTTP method, and optional JSON body. -/
structure ApiRequest where
  path : String
  method : String
  body : Option Json

/-- Outcome of the transport primitive (axios): parsed body on 2xx, or a
structured error. -/
inductive TransportOutcome where
  | ok (data : Json) : TransportOutcome
  | err (e : JiraError) : TransportOutcome

/-- The external transport collaborator: maps the request to its outcome. -/
abbrev Transport := ApiRequest → TransportOutcome

/-- Options bundle accepted by `makeJiraRequest` (`options.method || 'GET'`,
optional body). -/
structure RequestOptions where
  method : String := "GET"
  body : Option Json := none

/-- The request `makeJiraRequest` issues: the body is attached only for
POST or PUT (src/index.js line 98). -/
def buildRequest (path : String) (opts : RequestOptions) : ApiRequest :=
  { path := path
    method := opts.method
    body := if opts.method = "POST" ∨ opts.method = "PUT" then opts.body else none }

/-- Embeds `makeJiraRequest` (src/index.js lines 82-116): issues exactly one
request; on success returns `{success: true, data}` (data `null` for
DELETE); on failure returns `{success: false, error: formatJiraError(e)}`.
Also returns the one-element request log. -/
def makeJiraRequest (t : Transport) (path : String) (opts : RequestOptions) :
    ApiResult × List ApiRequest :=
  let req := buildRequest path opts
  match t req with
  | .ok d => (if opts.method = "DELETE" then .ok .null else .ok d, [req])
  | .err e => (.err (formatJiraError e), [req])

/-- Embeds `getCurrentUser` → GET /myself. -/
def getCurrentUser (t : Transport) : ApiResult × List ApiRequest :=
  makeJiraRequest t "/myself" {}

/-- Embeds `getProjectsList` → GET /project. -/
def getProjectsList (t : Transport) : ApiResult × List ApiRequest :=
  makeJiraRequest t "/project" {}

/-- The JS whitespace class (WhiteSpace and LineTerminator): ASCII
whitespace, NBSP, the line and paragraph separators and the BOM; used by
both JS trimming and `parseInt`. -/
def isJsSpace (c : Char) : Bool :=
  c = ' ' ∨ c = '\t' ∨ c = '\n' ∨ c = '\r' ∨ c.toNat = 11 ∨ c.toNat = 12 ∨
    c.toNat = 0xA0 ∨ c.toNat = 0x2028 ∨ c.toNat = 0x2029 ∨ c.toNat = 0xFEFF

/-- JS string trimming: the string with leading and trailing whitespace
removed. -/
def jsTrim (s : String) : String :=
  String.mk (((s.toList.dropWhile isJsSpace).reverse.dropWhile isJsSpace).reverse)

/-- Embeds `getProject` (src/index.js lines 129-135): rejects a missing or
blank-after-trim key locally, else GET /project/{trimmed key}. -/
def getProject (t : Transport) (projectKey : String) : ApiResult × List ApiRequest :=
  if projectKey = "" ∨ jsTrim projectKey = "" then
    (.err "Project key is required", [])
  else
    makeJiraRequest t ("/project/" ++ jsTrim projectKey) {}

/-- Characters left unescaped by JS `encodeURIComponent`:
A-Z a-z 0-9 and - _ . ! ~ * ' ( ). -/
def isUnescapedURIChar (c : Char) : Bool :=
  c.isAlpha ∨ c.isDigit ∨
    c = '-' ∨ c = '_' ∨ c = '.' ∨ c = '!' ∨ c = '~' ∨ c = '*' ∨
    c = '\'' ∨ c = '(' ∨ c = ')'

/-- Uppercase hexadecimal digit for a value below 16. -/
def hexDigitChar (n : Nat) : Char :=
  if n < 10 then Char.ofNat (48 + n) else Char.ofNat (55 + n)

/-- Percent-encoding of one byte, e.g. 32 ↦ "%20". -/
def percentEncodeByte (b : Nat) : String :=
  String.mk ['%', hexDigitChar (b / 16), hexDigitChar (b % 16)]

/-- UTF-8 byte sequence of a character (as natural numbers). -/
def charUtf8Bytes (c : Char) : List Nat :=
  let n := c.toNat
  if n < 0x80 then [n]
  else if n < 0x800 then [0xC0 + n / 64, 0x80 + n % 64]
  else if n < 0x10000 then [0xE0 + n / 4096, 0x80 + n / 64 % 64, 0x80 + n % 64]
  else [0xF0 + n / 262144, 0x80 + n / 4096 % 64, 0x80 + n / 64 % 64, 0x80 + n % 64]

/-- JS `encodeURIComponent`: unreserved characters pass through, every other
character is replaced by the percent-encoding of its UTF-8 bytes. -/
def encodeURIComponent (s : String) : String :=
  String.join (s.toList.map (fun c =>
    if isUnescapedURIChar c then String.mk [c]
    else String.join ((charUtf8Bytes c).map percentEncodeByte)))

/-- Embeds `getIssuesList` (src/index.js lines 138-145): rejects a missing or
blank-after-trim project key locally, else GET
/search?jql={encoded "project = {key} ORDER BY created ASC"}&maxResults={n}.
The JS default `maxResults = 50` is passed explicitly here. -/
def getIssuesList (t : Transport) (projectKey : String) (maxResults : Nat) :
    ApiResult × List ApiRequest :=
  if projectKey = "" ∨ jsTrim projectKey = "" then
    (.err "Project key is required", [])
  else
    let jql := "project = " ++ jsTrim projectKey ++ " ORDER BY created ASC"
    makeJiraRequest t ("/search?jql=" ++ encodeURIComponent jql ++
      "&maxResults=" ++ toString maxResults) {}

/-- Embeds `getIssue` (src/index.js lines 148-154): rejects a missing or
blank-after-trim issue key locally, else GET /issue/{trimmed key}. -/
def getIssue (t : Transport) (issueKey : String) : ApiResult × List ApiRequest :=
  if issueKey = "" ∨ jsTrim issueKey = "" then
    (.err "Issue key is required (e.g., BTS-1)", [])
  else
    makeJiraRequest t ("/issue/" ++ jsTrim issueKey) {}

/-- Embeds `formatDescriptionForJira` (src/index.js lines 54-74): `none` for a
missing or blank description, else the single-paragraph rich-text document
around the trimmed text. -/
def formatDescriptionForJira (description : String) : Option Json :=
  if description = "" ∨ jsTrim description = "" then none
  else some (Json.obj
    [("type", .str "doc"),
     ("version", .num 1),
     ("content", .arr
       [.obj [("type", .str "paragraph"),
              ("content", .arr [.obj [("type", .str "text"),
                                      ("text", .str (jsTrim description))]])]])])

/-- Embeds `createIssue` (src/index.js lines 157-188): rejects a falsy (empty)
projectKey or summary locally; then checks the project via `getProject`,
returning the compound error without any creation call when that fails;
else POST /issue with the built body.  The request log concatenates the
check's requests with the creation request. -/
def createIssue (t : Transport) (projectKey summary description issueType : String) :
    ApiResult × List ApiRequest :=
  if projectKey = "" ∨ summary = "" then
    (.err "Project key and summary are required", [])
  else
    let (projectCheck, reqs1) := getProject t projectKey
    match projectCheck with
    | .err e =>
      (.err ("Project '" ++ projectKey ++ "' not found or you don't have access to it. " ++ e),
       reqs1)
    | .ok _ =>
      let baseFields : List (String × Json) :=
        [("project", Json.obj [("key", .str projectKey)]),
         ("summary", .str summary),
         ("issuetype", Json.obj [("name", .str issueType)])]
      let fields : List (String × Json) :=
        match formatDescriptionForJira description with
        | some d => baseFields ++ [("description", d)]
        | none => baseFields
      let (response, reqs2) :=
        makeJiraRequest t "/issue" { method := "POST", body := some (Json.obj [("fields", Json.obj fields)]) }
      (response, reqs1 ++ reqs2)

/-- Embeds `deleteIssue` (src/index.js lines 191-199): rejects only a falsy
(empty) issue key — no trim — else DELETE /issue/{key} with the key
untrimmed. -/
def deleteIssue (t : Transport) (issueKey : String) : ApiResult × List ApiRequest :=
  if issueKey = "" then
    (.err "Issue key is required (e.g., BTS-1)", [])
  else
    makeJiraRequest t ("/issue/" ++ issueKey) { method := "DELETE" }

/-- Decimal digit value of a character, `none` for a non-digit. -/
def decDigitVal (c : Char) : Option Nat :=
  if '0' ≤ c ∧ c ≤ '9' then some (c.toNat - 48) else none

/-- Hexadecimal digit value of a character, `none` for a non-hex-digit. -/
def hexDigitVal (c : Char) : Option Nat :=
  if '0' ≤ c ∧ c ≤ '9' then some (c.toNat - 48)
  else if 'a' ≤ c ∧ c ≤ 'f' then some (c.toNat - 87)
  else if 'A' ≤ c ∧ c ≤ 'F' then some (c.toNat - 55)
  else none

/-- Value of a most-significant-first digit list in the given base. -/
def digitsToNat (base : Nat) (vals : List Nat) : Nat :=
  vals.foldl (fun acc d => acc * base + d) 0

/-- Greedy digit scan used by `parseInt`: the value of the longest leading
run of digits, `none` (NaN) when there is no leading digit. -/
def scanDigits (f : Char → Option Nat) (base : Nat) (cs : List Char) : Option Nat :=
  let ds := cs.takeWhile (fun c => (f c).isSome)
  if ds = [] then none else some (digitsToNat base (ds.filterMap f))

/-- Unsigned part of JS `parseInt` with no radix argument: a `0x`/`0X`
prefix switches to hexadecimal, else the longest leading decimal run. -/
def jsParseIntFrom (cs : List Char) : Option Int :=
  match cs with
  | '0' :: c :: rest =>
    if c = 'x' ∨ c = 'X' then (scanDigits hexDigitVal 16 rest).map Int.ofNat
    else (scanDigits decDigitVal 10 ('0' :: c :: rest)).map Int.ofNat
  | _ => (scanDigits decDigitVal 10 cs).map Int.ofNat

/-- JS `parseInt(s)` (radix unspecified): skip leading whitespace, optional
sign, then the digit scan; `none` models NaN. -/
def jsParseInt (s : String) : Option Int :=
  let cs := s.toList.dropWhile isJsSpace
  match cs with
  | '-' :: rest => (jsParseIntFrom rest).map (fun n => -n)
  | '+' :: rest => jsParseIntFrom rest
  | _ => jsParseIntFrom cs

/-- The numbered-selection core shared by `selectProject` (src/index.js
lines 419-425) and `selectIssueFromList` (lines 485-491):
`parseInt(choice) - 1`, invalid (`none`) when NaN, below 0 or at least
the list length. -/
def selectIndexFromChoice (choice : String) (n : Nat) : Option Nat :=
  match jsParseInt choice with
  | none => none
  | some v =>
    if v - 1 < 0 ∨ (n : Int) ≤ v - 1 then none
    else some (v - 1).toNat

/-- Embeds `selectProject` (src/index.js lines 393-434) with the user's
choice passed as an argument: fetches the project list; on failure, an
empty list, a non-array payload or an invalid choice returns `none`
(flow aborted); else the chosen project.  Also returns the request log. -/
def selectProject (t : Transport) (choice : String) : Option Json × List ApiRequest :=
  let fetched := getProjectsList t
  match fetched.1 with
  | .err _ => (none, fetched.2)
  | .ok (.arr projects) =>
    if projects.length = 0 then (none, fetched.2)
    else
      match selectIndexFromChoice choice projects.length with
      | none => (none, fetched.2)
      | some i => (projects[i]?, fetched.2)
  | .ok _ => (none, fetched.2)

/-- Embeds `selectIssueFromList` (src/index.js lines 470-494): `none` for an
empty list or an invalid numbered choice, else the chosen issue. -/
def selectIssueFromList (issues : List Json) (choice : String) : Option Json :=
  if issues.length = 0 then none
  else
    match selectIndexFromChoice choice issues.length with
    | none => none
    | some i => issues[i]?

/-- Embeds `selectIssueFromProject` (src/index.js lines 437-459): select a
project (aborting, with no further requests, when that yields `none`), fetch
its issues, then select an issue from `data.issues`. -/
def selectIssueFromProject (t : Transport) (projectChoice issueChoice : String) :
    Option Json × List ApiRequest :=
  let selected := selectProject t projectChoice
  match selected.1 with
  | none => (none, selected.2)
  | some proj =>
    let key := match jsGet proj "key" with
      | some (.str k) => k
      | _ => ""
    let fetched := getIssuesList t key 50
    match fetched.1 with
    | .err _ => (none, selected.2 ++ fetched.2)
    | .ok data =>
      match jsGet data "issues" with
      | some (.arr items) =>
        (selectIssueFromList items issueChoice, selected.2 ++ fetched.2)
      | _ => (none, selected.2 ++ fetched.2)

/-- JS `s.toLowerCase()` as used on the confirmation input (character-wise
lowercasing; the inputs of interest are ASCII). -/
def jsToLowerCase (s : String) : String :=
  String.mk (s.toList.map Char.toLower)

/-- Embeds the confirmation step of `deleteSelectedIssue` (src/index.js
lines 566-575), after an issue with the given key has been selected: any
confirmation whose lowercasing is not "yes" cancels with no request; else
`deleteIssue` is invoked exactly once on the key. -/
def deleteSelectedIssue (t : Transport) (issueKey confirmation : String) :
    Option ApiResult × List ApiRequest :=
  if jsToLowerCase confirmation ≠ "yes" then (none, [])
  else
    let deleted := deleteIssue t issueKey
    (some deleted.1, deleted.2)

/-- JS `x.length === 0` applied to a result payload: property access on
`null` throws a TypeError (modelled as `Except.error`); arrays and strings
have a numeric length; any other value gives `undefined === 0`, false. -/
def lengthIsZero : Json → Except String Bool
  | .null => .error "TypeError: cannot read length of null"
  | .arr items => .ok (decide (items.length = 0))
  | .str s => .ok (decide (s.length = 0))
  | _ => .ok false

/-- Embeds `checkCredentials` (src/index.js lines 356-385) over the stored
email and apiToken: false with no request when either is empty; else probe
`getCurrentUser`, then `getProjectsList`, failing when either fails or the
project list is empty.  `Except.error` marks the only possible thrown
TypeError (a `null` projects payload). -/
def checkCredentials (t : Transport) (email apiToken : String) :
    Except String Bool × List ApiRequest :=
  if email = "" ∨ apiToken = "" then (.ok false, [])
  else
    let user := getCurrentUser t
    match user.1 with
    | .err _ => (.ok false, user.2)
    | .ok _ =>
      let projects := getProjectsList t
      match projects.1 with
      | .err _ => (.ok false, user.2 ++ projects.2)
      | .ok data =>
        match lengthIsZero data with
        | .error m => (.error m, user.2 ++ projects.2)
        | .ok true => (.ok false, user.2 ++ projects.2)
        | .ok false => (.ok true, user.2 ++ projects.2)

/-- Embeds `generateBaseURLFromEmail` (src/index.js lines 24-32): empty for
an empty email or one with no '@'; else https://{part before the first
'@'}.atlassian.net, where `email.split('@')[0]` is the longest '@'-free
prefix. -/
def generateBaseURLFromEmail (email : String) : String :=
  if email = "" ∨ '@' ∉ email.toList then ""
  else
    "https://" ++ String.mk (email.toList.takeWhile (fun c => c ≠ '@')) ++ ".atlassian.net"

/-- The process-wide mutable credential state (src/index.js lines 6-8). -/
structure Session where
  email : String
  apiToken : String
  baseURL : String
deriving Repr, DecidableEq

/-- Initial session: all three globals start as the empty string. -/
def Session.init : Session :=
  { email := "", apiToken := "", baseURL := "" }

/-- Embeds `setCredentials` (src/index.js lines 15-21): stores email and
token verbatim and derives baseURL from the stored email.  It is the only
mutator of the three globals. -/
def setCredentials (_s : Session) (jiraEmail jiraToken : String) : Session :=
  { email := jiraEmail
    apiToken := jiraToken
    baseURL := generateBaseURLFromEmail jiraEmail }

/-- Session states reachable in the program: the initial empty state, and
anything obtained by `setCredentials` (the sole mutator of the globals). -/
inductive SessionReachable : Session → Prop
  | init : SessionReachable Session.init
  | step (s : Session) (e tok : String) :
      SessionReachable s → SessionReachable (setCredentials s e tok)

/-- Copy of an error with the body's `errorMessages` field removed; used to
state that a falsy `errorMessages[0]` falls through to the later branches. -/
def eraseErrorMessages (e : JiraError) : JiraError :=
  { e with response := e.response.map (fun r =>
      { r with data := r.data.map (fun d => { d with errorMessages := none }) }) }

/-- Mock transport answering every request with a 2xx `null` body. -/
def nullTransport : Transport := fun _ => .ok Json.null

/-- Mock transport failing every request with a plain network error whose
message is "boom" (no HTTP response attached). -/
def failingTransport : Transport := fun _ => .err { response := none, message := "boom" }

/-- Mock transport answering GET /project with the given array of projects
and every other request with an empty object. -/
def projectsTransport (ps : List Json) : Transport := fun req =>
  if req.path = "/project" then .ok (.arr ps) else .ok (.obj [])

/-- Error carrying both errorMessages ["A"] and errors containing "B". -/
def errBothShapes : JiraError :=
  { response := some { status := 400, data := some { errorMessages := some ["A"], errors := some [("x", "B")] } }, message := "" }

/-- Error carrying only the keyed errors object with values "B" and "C". -/
def errKeyedOnly : JiraError :=
  { response := some { status := 400, data := some { errorMessages := none, errors := some [("x", "B"), ("y", "C")] } }, message := "" }

/-- Error whose errorMessages array is present but has the empty string as
first entry, next to errors containing "B". -/
def errFalsyFirst : JiraError :=
  { response := some { status := 400, data := some { errorMessages := some [""], errors := some [("x", "B")] } }, message := "m" }

/-- Plain 401 HTTP failure with no body and no message. -/
def err401 : JiraError := { response := some { status := 401, data := none }, message := "" }

theorem takeWhile_ne_of_append (sep : Char) (pre suf : List Char) (h : sep ∉ pre) :
    (pre ++ sep :: suf).takeWhile (fun c => c ≠ sep) = pre := by
  induction pre with
  | nil =>
    rw [List.nil_append, List.takeWhile_cons, if_neg (by simp)]
  | cons a as ih =>
    have ha : a ≠ sep := fun hc => h (hc ▸ List.mem_cons_self a as)
    have hs : sep ∉ as := fun hm => h (List.mem_cons_of_mem a hm)
    rw [List.cons_append, List.takeWhile_cons, if_pos (by simp [ha]), ih hs]

/-- C6: `generateBaseURLFromEmail` (applied to the stored email by
`setCredentials`) returns "" when the email is empty or has no '@', and
otherwise "https://" ++ (the part of the email before the first '@') ++
".atlassian.net"; the "before the first '@'" part is made explicit by
writing the email as an '@'-free prefix, an '@', and an arbitrary rest. -/
theorem c6_base_url :
    (∀ e : String, e = "" ∨ '@' ∉ e.toList → generateBaseURLFromEmail e = "") ∧
    (∀ pre suf : List Char, '@' ∉ pre →
        generateBaseURLFromEmail (String.mk (pre ++ '@' :: suf)) =
          "https://" ++ String.mk pre ++ ".atlassian.net") ∧
    (∀ (s : Session) (e tok : String),
        (setCredentials s e tok).baseURL = generateBaseURLFromEmail e) := by
  refine ⟨fun e h => by rw [generateBaseURLFromEmail, if_pos h], fun pre suf h => ?_, fun _ _ _ => rfl⟩
  rw [generateBaseURLFromEmail, if_neg]
  · have hl : (String.mk (pre ++ '@' :: suf)).toList = pre ++ '@' :: suf := rfl
    rw [hl, takeWhile_ne_of_append '@' pre suf h]
  · rintro (h1 | h2)
    · have : (pre ++ '@' :: suf) = [] := congrArg String.toList h1
      simp at this
    · exact h2 (by simp)

theorem c6_base_url_witness :
    generateBaseURLFromEmail (String.mk (['a', 'l', 'i', 'c', 'e'] ++ '@' :: ['c', 'o'])) =
      "https://" ++ String.mk ['a', 'l', 'i', 'c', 'e'] ++ ".atlassian.net" :=
  c6_base_url.2.1 ['a', 'l', 'i', 'c', 'e'] ['c', 'o'] (by decide)

/-- C9: the session starts with all three fields empty; `setCredentials`
(the only mutator in the model) stores email and token verbatim and always
derives baseURL from the email it stores; hence in every reachable state
baseURL is empty or exactly `generateBaseURLFromEmail` of the stored
email. -/
theorem c9_session_invariant :
    (Session.init.email = "" ∧ Session.init.apiToken = "" ∧ Session.init.baseURL = "") ∧
    (∀ (s : Session) (e tok : String),
        (setCredentials s e tok).email = e ∧
        (setCredentials s e tok).apiToken = tok ∧
        (setCredentials s e tok).baseURL =
          generateBaseURLFromEmail (setCredentials s e tok).email) ∧
    (∀ s : Session, SessionReachable s →
        s.baseURL = "" ∨ s.baseURL = generateBaseURLFromEmail s.email) := by
  refine ⟨⟨rfl, rfl, rfl⟩, fun _ _ _ => ⟨rfl, rfl, rfl⟩, fun s h => ?_⟩
  induction h with
  | init => exact Or.inl rfl
  | step s' e tok _ _ => exact Or.inr rfl

theorem c9_session_invariant_witness :
    (setCredentials Session.init "alice@co" "tok").baseURL = "" ∨
    (setCredentials Session.init "alice@co" "tok").baseURL =
      generateBaseURLFromEmail (setCredentials Session.init "alice@co" "tok").email :=
  c9_session_invariant.2.2 _ (SessionReachable.step _ "alice@co" "tok" SessionReachable.init)

/-- C4: in the delete flow's confirmation step, any input whose lowercasing
is not "yes" cancels with zero delete requests; an input lowercasing to
"yes" invokes `deleteIssue` exactly once on the selected key, issuing (for
a non-empty key) exactly one DELETE /issue/{key} request; "y", "", "no"
and "YES please" cancel while "yes", "YES" and "Yes" confirm. -/
theorem c4_delete_confirmation :
    (∀ (t : Transport) (k c : String), jsToLowerCase c ≠ "yes" →
        deleteSelectedIssue t k c = (none, [])) ∧
    (∀ (t : Transport) (k c : String), jsToLowerCase c = "yes" →
        deleteSelectedIssue t k c = (some (deleteIssue t k).1, (deleteIssue t k).2)) ∧
    (∀ (t : Transport) (k c : String), jsToLowerCase c = "yes" → k ≠ "" →
        (deleteSelectedIssue t k c).2 =
          [{ path := "/issue/" ++ k, method := "DELETE", body := none }]) ∧
    (jsToLowerCase "y" ≠ "yes" ∧ jsToLowerCase "" ≠ "yes" ∧ jsToLowerCase "no" ≠ "yes" ∧
      jsToLowerCase "YES please" ≠ "yes" ∧
      jsToLowerCase "yes" = "yes" ∧ jsToLowerCase "YES" = "yes" ∧ jsToLowerCase "Yes" = "yes") := by
  refine ⟨fun t k c h => by simp [deleteSelectedIssue, h],
    fun t k c h => by simp [deleteSelectedIssue, h],
    fun t k c h hk => ?_, by decide⟩
  simp only [deleteSelectedIssue, h, ne_eq, not_true_eq_false, if_neg, if_false]
  simp [deleteIssue, hk, makeJiraRequest, buildRequest]
  cases t { path := "/issue/" ++ k, method := "DELETE", body := none } <;> rfl

theorem c4_delete_confirmation_witness :
    deleteSelectedIssue nullTransport "BTS-1" "no" = (none, []) :=
  c4_delete_confirmation.1 nullTransport "BTS-1" "no" (by decide)


theorem makeJiraRequest_log (t : Transport) (path : String) (opts : RequestOptions) :
    (makeJiraRequest t path opts).2 = [buildRequest path opts] := by
  unfold makeJiraRequest
  cases h : t (buildRequest path opts) <;> simp [h]

theorem buildRequest_get (path : String) :
    buildRequest path {} = { path := path, method := "GET", body := none } := rfl

theorem getProject_blank (t : Transport) (k : String) (h : jsTrim k = "") :
    getProject t k = (.err "Project key is required", []) := by
  simp [getProject, h]

/-- C2 counterexample: `deleteIssue` checks only `!issueKey`, not the
trimmed key, so the whitespace-only key "   " is not rejected locally: one
transport request is issued and the result is the transport's success, not
the local required-field failure the claim demands. -/
theorem c2_counterexample :
    (deleteIssue nullTransport "   ").2.length = 1 ∧
    (deleteIssue nullTransport "   ").1 = ApiResult.ok Json.null :=
  ⟨rfl, rfl⟩

/-- C2 amended: `getProject`, `getIssuesList` and `getIssue` reject an
empty or whitespace-only (blank after trimming) required key locally, with
their literal error strings and zero transport requests; `createIssue`
rejects only an empty (untrimmed) projectKey or summary, and `deleteIssue`
only an empty issueKey, again locally with zero requests; a whitespace-only
projectKey still causes zero `createIssue` requests (the inner `getProject`
check rejects it), but whitespace-only summaries or issue keys are not
caught by the local validation. -/
theorem c2_validation_amended :
    (∀ (t : Transport) (k : String), jsTrim k = "" →
        getProject t k = (.err "Project key is required", [])) ∧
    (∀ (t : Transport) (k : String) (mr : Nat), jsTrim k = "" →
        getIssuesList t k mr = (.err "Project key is required", [])) ∧
    (∀ (t : Transport) (k : String), jsTrim k = "" →
        getIssue t k = (.err "Issue key is required (e.g., BTS-1)", [])) ∧
    (∀ (t : Transport) (pk s d ty : String), pk = "" ∨ s = "" →
        createIssue t pk s d ty = (.err "Project key and summary are required", [])) ∧
    (∀ (t : Transport) (pk s d ty : String), jsTrim pk = "" →
        (createIssue t pk s d ty).2 = []) ∧
    (∀ (t : Transport) (k : String), k = "" →
        deleteIssue t k = (.err "Issue key is required (e.g., BTS-1)", [])) := by
  refine ⟨getProject_blank, fun t k mr h => by simp [getIssuesList, h],
    fun t k h => by simp [getIssue, h], fun t pk s d ty h => ?_,
    fun t pk s d ty h => ?_, fun t k h => by simp [deleteIssue, h]⟩
  · simp only [createIssue]
    rw [if_pos h]
  · by_cases h1 : pk = "" ∨ s = ""
    · simp only [createIssue]
      rw [if_pos h1]
    · simp [createIssue, h1, getProject_blank t pk h]

theorem c2_validation_amended_witness :
    getProject nullTransport " " = (.err "Project key is required", []) :=
  c2_validation_amended.1 nullTransport " " (by decide)

theorem getProject_methods (t : Transport) (k : String) :
    ∀ r ∈ (getProject t k).2, r.method = "GET" := by
  intro r hr
  by_cases h : k = "" ∨ jsTrim k = ""
  · simp [getProject, h] at hr
  · rw [getProject, if_neg h, makeJiraRequest_log, buildRequest_get] at hr
    simp at hr
    rw [hr]

/-- C5: when projectKey and summary are non-empty and the `getProject`
check fails, `createIssue` returns exactly the compound error "Project
'{projectKey}' not found or you don't have access to it. " followed by the
inner error verbatim, its request log is exactly the check's log, and it
issues zero POST requests (no creation call). -/
theorem c5_create_checks_project :
    ∀ (t : Transport) (pk s d ty msg : String),
      pk ≠ "" → s ≠ "" → (getProject t pk).1 = .err msg →
      (createIssue t pk s d ty).1 =
          .err ("Project '" ++ pk ++ "' not found or you don't have access to it. " ++ msg) ∧
      (createIssue t pk s d ty).2 = (getProject t pk).2 ∧
      (createIssue t pk s d ty).2.countP (fun r => r.method == "POST") = 0 := by
  intro t pk s d ty msg hpk hs hfail
  have hcond : ¬(pk = "" ∨ s = "") := by simp [hpk, hs]
  have hmeth := getProject_methods t pk
  rcases hgp : getProject t pk with ⟨res, reqs⟩
  rw [hgp] at hfail
  simp only at hfail
  subst hfail
  have hsplit : createIssue t pk s d ty =
      (.err ("Project '" ++ pk ++ "' not found or you don't have access to it. " ++ msg),
        reqs) := by
    simp [createIssue, if_neg hcond, hgp]
  rw [hgp] at hmeth
  simp only at hmeth
  refine ⟨by simp [hsplit], by simp [hsplit, hgp], ?_⟩
  rw [hsplit]
  simp only [List.countP_eq_zero]
  intro r hr
  have hg := hmeth r hr
  simp [hg]

theorem c5_create_checks_project_witness :
    (createIssue failingTransport "X" "S" "" "Task").1 =
        .err ("Project '" ++ "X" ++ "' not found or you don't have access to it. " ++ "boom") ∧
    (createIssue failingTransport "X" "S" "" "Task").2 = (getProject failingTransport "X").2 ∧
    (createIssue failingTransport "X" "S" "" "Task").2.countP (fun r => r.method == "POST") = 0 :=
  c5_create_checks_project failingTransport "X" "S" "" "Task" "boom"
    (by decide) (by decide) rfl

/-- C8: for every project key that is non-blank after trimming,
`getIssuesList` issues exactly one GET request whose path is
"/search?jql=" ++ encodeURIComponent("project = " ++ trimmed key ++
" ORDER BY created ASC") ++ "&maxResults=" ++ maxResults; for "BTS" with
the default maxResults 50 that path is literally
"/search?jql=project%20%3D%20BTS%20ORDER%20BY%20created%20ASC&maxResults=50". -/
theorem c8_issues_list_path :
    (∀ (t : Transport) (pk : String) (mr : Nat), jsTrim pk ≠ "" →
        (getIssuesList t pk mr).2 =
          [{ path := "/search?jql=" ++
               encodeURIComponent ("project = " ++ jsTrim pk ++ " ORDER BY created ASC") ++
               "&maxResults=" ++ toString mr,
             method := "GET", body := none }]) ∧
    (getIssuesList nullTransport "BTS" 50).2 =
      [{ path := "/search?jql=project%20%3D%20BTS%20ORDER%20BY%20created%20ASC&maxResults=50",
         method := "GET", body := none }] := by
  refine ⟨fun t pk mr h => ?_, rfl⟩
  have hcond : ¬(pk = "" ∨ jsTrim pk = "") := by
    rintro (h1 | h2)
    · subst h1
      exact h (by decide)
    · exact h h2
  rw [getIssuesList, if_neg hcond, makeJiraRequest_log, buildRequest_get]

theorem c8_issues_list_path_witness :
    (getIssuesList nullTransport "BTS" 50).2 =
      [{ path := "/search?jql=" ++
           encodeURIComponent ("project = " ++ jsTrim "BTS" ++ " ORDER BY created ASC") ++
           "&maxResults=" ++ toString 50,
         method := "GET", body := none }] :=
  c8_issues_list_path.1 nullTransport "BTS" 50 (by decide)

/-- C1: every transport failure is normalized by `makeJiraRequest` to a
failure result carrying `formatJiraError` of the error, and
`formatJiraError` follows exactly the seven-step precedence: truthy first
`errorMessages` entry; else the `errors` values joined with ", "; else the
401/403/404 literals; else the error's message when non-empty; else
"Unknown error occurred".  With both errorMessages ["A"] and errors
containing "B" the result is "A"; with only keyed errors "B", "C" it is
"B, C". -/
theorem c1_error_precedence :
    (∀ (t : Transport) (path : String) (opts : RequestOptions) (e : JiraError),
        t (buildRequest path opts) = .err e →
        (makeJiraRequest t path opts).1 = .err (formatJiraError e)) ∧
    (∀ (e : JiraError) (m : String) (tl : List String),
        e.bodyOf.bind JiraErrorBody.errorMessages = some (m :: tl) → m ≠ "" →
        formatJiraError e = m) ∧
    (∀ (e : JiraError) (kvs : List (String × String)),
        truthyHead (e.bodyOf.bind JiraErrorBody.errorMessages) = none →
        e.bodyOf.bind JiraErrorBody.errors = some kvs →
        formatJiraError e = String.intercalate ", " (kvs.map Prod.snd)) ∧
    (∀ (e : JiraError) (r : ErrorResponse),
        truthyHead (e.bodyOf.bind JiraErrorBody.errorMessages) = none →
        e.bodyOf.bind JiraErrorBody.errors = none →
        e.response = some r → r.status = 401 →
        formatJiraError e = "Authentication failed. Please check your email and API token.") ∧
    (∀ (e : JiraError) (r : ErrorResponse),
        truthyHead (e.bodyOf.bind JiraErrorBody.errorMessages) = none →
        e.bodyOf.bind JiraErrorBody.errors = none →
        e.response = some r → r.status = 403 →
        formatJiraError e = "Access denied. You may not have permission for this action.") ∧
    (∀ (e : JiraError) (r : ErrorResponse),
        truthyHead (e.bodyOf.bind JiraErrorBody.errorMessages) = none →
        e.bodyOf.bind JiraErrorBody.errors = none →
        e.response = some r → r.status = 404 →
        formatJiraError e = "Resource not found. Please check the issue key or project key.") ∧
    (∀ (e : JiraError) (r : ErrorResponse),
        truthyHead (e.bodyOf.bind JiraErrorBody.errorMessages) = none →
        e.bodyOf.bind JiraErrorBody.errors = none →
        e.response = some r → r.status ≠ 401 → r.status ≠ 403 → r.status ≠ 404 →
        formatJiraError e = messageOrUnknown e) ∧
    (∀ e : JiraError,
        truthyHead (e.bodyOf.bind JiraErrorBody.errorMessages) = none →
        e.bodyOf.bind JiraErrorBody.errors = none →
        e.response = none →
        formatJiraError e = messageOrUnknown e) ∧
    (∀ e : JiraError, e.message ≠ "" → messageOrUnknown e = e.message) ∧
    (∀ e : JiraError, e.message = "" → messageOrUnknown e = "Unknown error occurred") ∧
    formatJiraError errBothShapes = "A" ∧
    formatJiraError errKeyedOnly = "B, C" := by
  refine ⟨fun t path opts e h => by simp [makeJiraRequest, h],
    fun e m tl h1 h2 => by simp [formatJiraError, h1, truthyHead, h2],
    fun e kvs h1 h2 => by simp [formatJiraError, h1, h2],
    fun e r h1 h2 h3 h4 => by simp [formatJiraError, h1, h2, h3, h4],
    fun e r h1 h2 h3 h4 => by simp [formatJiraError, h1, h2, h3, h4],
    fun e r h1 h2 h3 h4 => by simp [formatJiraError, h1, h2, h3, h4],
    fun e r h1 h2 h3 h4 h5 h6 => by simp [formatJiraError, h1, h2, h3, h4, h5, h6],
    fun e h1 h2 h3 => by simp [formatJiraError, h1, h2, h3],
    fun e h => by simp [messageOrUnknown, h],
    fun e h => by simp [messageOrUnknown, h],
    rfl, rfl⟩

theorem c1_error_precedence_witness :
    (makeJiraRequest (fun _ => .err err401) "/myself" {}).1 =
      .err (formatJiraError err401) :=
  c1_error_precedence.1 (fun _ => .err err401) "/myself" {} err401 rfl

theorem truthyHead_none : truthyHead none = none := rfl

/-- C10: the first branch of `formatJiraError` tests the truthiness of
`errorMessages[0]`, not the presence of the array: whenever that entry is
falsy (array absent, empty, or first entry the empty string) the result is
the same as with `errorMessages` removed altogether, so the later branches
decide; in particular errorMessages [""] together with errors containing
"B" normalizes to "B", not "". -/
theorem c10_falsy_first_entry :
    (∀ e : JiraError,
        truthyHead (e.bodyOf.bind JiraErrorBody.errorMessages) = none →
        formatJiraError e = formatJiraError (eraseErrorMessages e)) ∧
    (∀ ms : Option (List String),
        ms = some [] ∨ (∃ tl, ms = some ("" :: tl)) → truthyHead ms = none) ∧
    formatJiraError errFalsyFirst = "B" := by
  refine ⟨?_, ?_, rfl⟩
  · rintro ⟨resp, msg⟩ h
    cases resp with
    | none => rfl
    | some r =>
      cases r with
      | mk st d =>
        cases d with
        | none => rfl
        | some body =>
          cases body with
          | mk ems errs =>
            have h1 : truthyHead ems = none := by
              simpa [JiraError.bodyOf] using h
            cases errs <;>
              simp [formatJiraError, JiraError.bodyOf, eraseErrorMessages, h1,
                truthyHead_none, messageOrUnknown]
  · rintro ms (h | ⟨tl, h⟩) <;> subst h <;> simp [truthyHead]

theorem c10_falsy_first_entry_witness :
    formatJiraError errFalsyFirst = formatJiraError (eraseErrorMessages errFalsyFirst) :=
  c10_falsy_first_entry.1 errFalsyFirst rfl

/-- C3: the numbered-selection step maps an input parsing to k with
1 ≤ k ≤ n onto index k-1 of the n listed items, while a non-numeric
(parseInt-NaN) or out-of-range input yields the invalid-choice outcome
`none`; for a list of 3, "1","2","3" select indices 0,1,2 and "0","4",
"abc","" are invalid; an invalid choice in `selectIssueFromList` selects
nothing, and an aborted `selectProject` makes `selectIssueFromProject`
return with no request beyond the project-list fetch. -/
theorem c3_selection :
    (∀ (choice : String) (k n : Nat), jsParseInt choice = some (k : Int) →
        1 ≤ k → k ≤ n → selectIndexFromChoice choice n = some (k - 1)) ∧
    (∀ (choice : String) (n : Nat), jsParseInt choice = none →
        selectIndexFromChoice choice n = none) ∧
    (∀ (choice : String) (n : Nat) (v : Int), jsParseInt choice = some v →
        (v < 1 ∨ (n : Int) < v) → selectIndexFromChoice choice n = none) ∧
    (selectIndexFromChoice "1" 3 = some 0 ∧ selectIndexFromChoice "2" 3 = some 1 ∧
      selectIndexFromChoice "3" 3 = some 2 ∧ selectIndexFromChoice "0" 3 = none ∧
      selectIndexFromChoice "4" 3 = none ∧ selectIndexFromChoice "abc" 3 = none ∧
      selectIndexFromChoice "" 3 = none) ∧
    (∀ (issues : List Json) (ic : String),
        selectIndexFromChoice ic issues.length = none →
        selectIssueFromList issues ic = none) ∧
    (∀ (t : Transport) (projects : List Json) (pc : String),
        (getProjectsList t).1 = .ok (.arr projects) →
        selectIndexFromChoice pc projects.length = none →
        (selectProject t pc).1 = none) ∧
    (∀ (t : Transport) (pc ic : String), (selectProject t pc).1 = none →
        selectIssueFromProject t pc ic = (none, (selectProject t pc).2)) := by
  refine ⟨fun c k n h h1 h2 => ?_, fun c n h => by simp [selectIndexFromChoice, h],
    fun c n v h hout => ?_, by decide, fun issues ic h => ?_,
    fun t projects pc hfetch hsel => ?_, fun t pc ic h => by simp [selectIssueFromProject, h]⟩
  · simp only [selectIndexFromChoice, h]
    rw [if_neg (by omega)]
    congr 1
    omega
  · simp only [selectIndexFromChoice, h]
    rw [if_pos (by omega)]
  · by_cases hl : issues.length = 0
    · simp [selectIssueFromList, hl]
    · simp [selectIssueFromList, hl, h]
  · by_cases hl : projects.length = 0
    · simp [selectProject, hfetch, hl]
    · simp [selectProject, hfetch, hl, hsel]

theorem c3_selection_witness :
    selectIndexFromChoice "2" 3 = some (2 - 1) :=
  c3_selection.1 "2" 2 3 (by decide) (by decide) (by decide)

/-- C7: `checkCredentials` returns a failure outcome (never a thrown
error) exactly when, in order: email or token is empty (with zero
requests); the current-user probe fails; the project-list probe fails; or
both succeed but the project array is empty; and it returns success when
both probes succeed with a non-empty project array. -/
theorem c7_check_credentials :
    (∀ (t : Transport) (em tok : String), em = "" ∨ tok = "" →
        checkCredentials t em tok = (.ok false, [])) ∧
    (∀ (t : Transport) (em tok msg : String), em ≠ "" → tok ≠ "" →
        (getCurrentUser t).1 = .err msg →
        (checkCredentials t em tok).1 = .ok false) ∧
    (∀ (t : Transport) (em tok msg : String) (u : Json), em ≠ "" → tok ≠ "" →
        (getCurrentUser t).1 = .ok u → (getProjectsList t).1 = .err msg →
        (checkCredentials t em tok).1 = .ok false) ∧
    (∀ (t : Transport) (em tok : String) (u : Json), em ≠ "" → tok ≠ "" →
        (getCurrentUser t).1 = .ok u → (getProjectsList t).1 = .ok (.arr []) →
        (checkCredentials t em tok).1 = .ok false) ∧
    (∀ (t : Transport) (em tok : String) (u p : Json) (ps : List Json), em ≠ "" → tok ≠ "" →
        (getCurrentUser t).1 = .ok u → (getProjectsList t).1 = .ok (.arr (p :: ps)) →
        (checkCredentials t em tok).1 = .ok true) := by
  refine ⟨fun t em tok h => by simp only [checkCredentials]; rw [if_pos h],
    fun t em tok msg h1 h2 h3 => ?_, fun t em tok msg u h1 h2 h3 h4 => ?_,
    fun t em tok u h1 h2 h3 h4 => ?_, fun t em tok u p ps h1 h2 h3 h4 => ?_⟩ <;>
    have hcond : ¬(em = "" ∨ tok = "") := by simp [h1, h2]
  · simp [checkCredentials, hcond, h3]
  · simp [checkCredentials, hcond, h3, h4]
  · simp [checkCredentials, hcond, h3, h4, lengthIsZero]
  · simp [checkCredentials, hcond, h3, h4, lengthIsZero]

theorem c7_check_credentials_witness :
    (checkCredentials (projectsTransport [Json.obj []]) "alice@co" "tok").1 = .ok true :=
  c7_check_credentials.2.2.2.2 (projectsTransport [Json.obj []]) "alice@co" "tok"
    (Json.obj []) (Json.obj []) [] (by decide) (by decide) rfl rfl
